import Mathlib

/-!
Verification of the Melbourne parking data pipeline.

This file embeds the data model and the operations of the two scripts
`create_melbourne_metadata.py` and `calculate_melbourne_center.py` as
executable Lean definitions and proves properties about them.

Modelling conventions:
* Python numbers (populations, areas, coordinates) are rationals `ℚ`.
* A population record (one JSON object of the API response) is a `Record`:
  the optional string field keyed `sa2_name` plus the remaining numeric
  fields (`area_km2`, `y2001` … `y2021`, …) as an association list.
* A Python expression that can raise is a Lean value of type `Except PyError _`;
  an uncaught exception propagates through `Except` exactly as it unwinds in
  Python.
* Python string comparison is lexicographic on code points, embedded as the
  lexicographic order on the underlying character lists (`String.data`).
* `dict` update keeps insertion order and overwrites in place; `dinsert`
  mirrors that on association lists.
-/

/-- Kinds of Python exceptions raised (or caught) by the scripts. -/
inductive PyError where
  | keyError (key : String)
  | indexError
  | valueError (msg : String)
  | transportError
  | httpStatusError (code : Nat)
  | jsonDecodeError
  | fileNotFoundError
deriving DecidableEq, Repr

/-- One population record of the API response: the optional `sa2_name` string
field and the remaining numeric fields (`area_km2` and the year columns
`y2001` … `y2021`) as an association list in JSON key order. -/
structure Record where
  sa2_name : Option String
  fields : List (String × ℚ)
deriving DecidableEq, Repr

/-- The keys of a record, as Python `record.keys()` enumerates them. -/
def keysOf (r : Record) : List String :=
  (match r.sa2_name with | some _ => ["sa2_name"] | none => []) ++ r.fields.map Prod.fst

/-- Python `region['sa2_name']`: the name, or a `KeyError` when absent. -/
def getName (r : Record) : Except PyError String :=
  match r.sa2_name with
  | some n => .ok n
  | none => .error (.keyError "sa2_name")

/-- Python `region[k]` for a numeric field `k`: the value, or a `KeyError`. -/
def getField (r : Record) (k : String) : Except PyError ℚ :=
  match r.fields.find? (fun p => p.1 == k) with
  | some p => .ok p.2
  | none => .error (.keyError k)

/-- Python `col.startswith('y')`-style test: the first string is a prefix of
the second, compared character by character. -/
def pyStartswith (s pre : String) : Bool :=
  pre.data.isPrefixOf s.data

/-- Python `max(a, b)` on strings: replace the current value only when the new
one is strictly larger in the code-point lexicographic order. -/
def pyStrMax (a b : String) : String :=
  if a.data < b.data then b else a

/-- Python `max(iterable)` on strings: `none` on an empty iterable (Python
raises `ValueError: max() arg is an empty sequence` there). -/
def pyStrMax? : List String → Option String
  | [] => none
  | x :: xs => some (xs.foldl pyStrMax x)

/-- Python `max(a, b)` on numbers. -/
def pyMax (a b : ℚ) : ℚ :=
  if a < b then b else a

/-- Python `min(a, b)` on numbers. -/
def pyMin (a b : ℚ) : ℚ :=
  if b < a then b else a

/-- Python `max(iterable)` on numbers: `none` on an empty iterable. -/
def pyFoldMax? : List ℚ → Option ℚ
  | [] => none
  | x :: xs => some (xs.foldl pyMax x)

/-- Python `min(iterable)` on numbers: `none` on an empty iterable. -/
def pyFoldMin? : List ℚ → Option ℚ
  | [] => none
  | x :: xs => some (xs.foldl pyMin x)

theorem pyStrMax_left (a b : String) : a.data ≤ (pyStrMax a b).data := by
  unfold pyStrMax
  split
  · exact le_of_lt (by assumption)
  · exact le_refl _

theorem pyStrMax_right (a b : String) : b.data ≤ (pyStrMax a b).data := by
  unfold pyStrMax
  split
  · exact le_refl _
  · exact not_lt.mp (by assumption)

theorem pyStrMax_cases (a b : String) : pyStrMax a b = a ∨ pyStrMax a b = b := by
  unfold pyStrMax
  split
  · exact Or.inr rfl
  · exact Or.inl rfl

theorem foldl_pyStrMax_ge (xs : List String) (a : String) :
    a.data ≤ (xs.foldl pyStrMax a).data ∧
      ∀ y ∈ xs, y.data ≤ (xs.foldl pyStrMax a).data := by
  induction xs generalizing a with
  | nil => exact ⟨le_refl _, by intro y hy; cases hy⟩
  | cons x xs ih =>
    have h := ih (pyStrMax a x)
    refine ⟨le_trans (pyStrMax_left a x) h.1, ?_⟩
    intro y hy
    rcases List.mem_cons.mp hy with rfl | hy
    · exact le_trans (pyStrMax_right a y) h.1
    · exact h.2 y hy

theorem foldl_pyStrMax_mem (xs : List String) (a : String) :
    xs.foldl pyStrMax a = a ∨ xs.foldl pyStrMax a ∈ xs := by
  induction xs generalizing a with
  | nil => exact Or.inl rfl
  | cons x xs ih =>
    have hfold : (x :: xs).foldl pyStrMax a = xs.foldl pyStrMax (pyStrMax a x) := rfl
    rcases ih (pyStrMax a x) with h | h
    · rcases pyStrMax_cases a x with h' | h'
      · exact Or.inl (by rw [hfold, h, h'])
      · exact Or.inr (by rw [hfold, h, h']; exact List.mem_cons_self x xs)
    · exact Or.inr (by rw [hfold]; exact List.mem_cons_of_mem _ h)

theorem pyMax_left (a b : ℚ) : a ≤ pyMax a b := by
  unfold pyMax
  split
  · exact le_of_lt (by assumption)
  · exact le_refl _

theorem pyMax_right (a b : ℚ) : b ≤ pyMax a b := by
  unfold pyMax
  split
  · exact le_refl _
  · exact not_lt.mp (by assumption)

theorem pyMin_left (a b : ℚ) : pyMin a b ≤ a := by
  unfold pyMin
  split
  · exact le_of_lt (by assumption)
  · exact le_refl _

theorem pyMin_right (a b : ℚ) : pyMin a b ≤ b := by
  unfold pyMin
  split
  · exact le_refl _
  · exact not_lt.mp (by assumption)

theorem foldl_pyMax_ge (xs : List ℚ) (a : ℚ) :
    a ≤ xs.foldl pyMax a ∧ ∀ y ∈ xs, y ≤ xs.foldl pyMax a := by
  induction xs generalizing a with
  | nil => exact ⟨le_refl _, by intro y hy; cases hy⟩
  | cons x xs ih =>
    have h := ih (pyMax a x)
    refine ⟨le_trans (pyMax_left a x) h.1, ?_⟩
    intro y hy
    rcases List.mem_cons.mp hy with rfl | hy
    · exact le_trans (pyMax_right a y) h.1
    · exact h.2 y hy

theorem foldl_pyMin_le (xs : List ℚ) (a : ℚ) :
    xs.foldl pyMin a ≤ a ∧ ∀ y ∈ xs, xs.foldl pyMin a ≤ y := by
  induction xs generalizing a with
  | nil => exact ⟨le_refl _, by intro y hy; cases hy⟩
  | cons x xs ih =>
    have h := ih (pyMin a x)
    refine ⟨le_trans h.1 (pyMin_left a x), ?_⟩
    intro y hy
    rcases List.mem_cons.mp hy with rfl | hy
    · exact le_trans h.1 (pyMin_right a y)
    · exact h.2 y hy

theorem pyFoldMax?_ge (l : List ℚ) (m : ℚ) (hm : pyFoldMax? l = some m) :
    ∀ y ∈ l, y ≤ m := by
  cases l with
  | nil => cases hm
  | cons x xs =>
    simp only [pyFoldMax?, Option.some.injEq] at hm
    subst hm
    intro y hy
    rcases List.mem_cons.mp hy with rfl | hy
    · exact (foldl_pyMax_ge xs y).1
    · exact (foldl_pyMax_ge xs x).2 y hy

theorem pyFoldMin?_le (l : List ℚ) (m : ℚ) (hm : pyFoldMin? l = some m) :
    ∀ y ∈ l, m ≤ y := by
  cases l with
  | nil => cases hm
  | cons x xs =>
    simp only [pyFoldMin?, Option.some.injEq] at hm
    subst hm
    intro y hy
    rcases List.mem_cons.mp hy with rfl | hy
    · exact (foldl_pyMin_le xs y).1
    · exact (foldl_pyMin_le xs x).2 y hy

theorem pyFoldMin?_isSome (l : List ℚ) (hl : l ≠ []) : ∃ m, pyFoldMin? l = some m := by
  cases l with
  | nil => exact absurd rfl hl
  | cons x xs => exact ⟨xs.foldl pyMin x, rfl⟩

theorem pyFoldMax?_isSome (l : List ℚ) (hl : l ≠ []) : ∃ m, pyFoldMax? l = some m := by
  cases l with
  | nil => exact absurd rfl hl
  | cons x xs => exact ⟨xs.foldl pyMax x, rfl⟩

/-- Python `round(x, 2)`: round to two decimal places, over `ℚ`. -/
def round2 (q : ℚ) : ℚ :=
  (round (q * 100) : ℤ) / 100

/-- Python `d[k] = v` on a dict represented as an association list in
insertion order: overwrite in place when the key exists, append otherwise. -/
def dinsert (k : String) (v : ℚ) : List (String × ℚ) → List (String × ℚ)
  | [] => [(k, v)]
  | p :: ps => if p.1 = k then (k, v) :: ps else p :: dinsert k v ps

/-- The year-column selection shared by `create_metadata_from_latest_year`,
`create_density_metadata` and `create_matched_metadata`:
`year_columns = [col for col in api_data[0].keys() if col.startswith('y')]`
followed by `latest_year = max(year_columns)`. Indexing an empty list raises
`IndexError`; `max` of an empty sequence raises `ValueError`. -/
def latestYear (api_data : List Record) : Except PyError String :=
  match api_data with
  | [] => .error .indexError
  | r :: _ =>
    match pyStrMax? ((keysOf r).filter (fun c => pyStartswith c "y")) with
    | some ly => .ok ly
    | none => .error (.valueError "max arg is an empty sequence")

/-- The `for region in api_data` loop of `create_metadata_from_latest_year`:
`metadata[region['sa2_name']] = region[latest_year]`. -/
def popLoop (ly : String) : List Record → List (String × ℚ) → Except PyError (List (String × ℚ))
  | [], md => .ok md
  | r :: rs, md =>
    match getName r with
    | .error e => .error e
    | .ok name =>
      match getField r ly with
      | .error e => .error e
      | .ok pop => popLoop ly rs (dinsert name pop md)

/-- Function `create_metadata_from_latest_year` of
`create_melbourne_metadata.py` (the file write is outside the model). -/
def create_metadata_from_latest_year (api_data : List Record) :
    Except PyError (List (String × ℚ)) :=
  match latestYear api_data with
  | .error e => .error e
  | .ok ly => popLoop ly api_data []

/-- The `for region in api_data` loop of `create_density_metadata`:
look up name, population and area, then store
`round(population / area_km2 if area_km2 > 0 else 0, 2)`. -/
def densityLoop (ly : String) : List Record → List (String × ℚ) → Except PyError (List (String × ℚ))
  | [], md => .ok md
  | r :: rs, md =>
    match getName r with
    | .error e => .error e
    | .ok name =>
      match getField r ly with
      | .error e => .error e
      | .ok pop =>
        match getField r "area_km2" with
        | .error e => .error e
        | .ok area =>
          densityLoop ly rs (dinsert name (round2 (if area > 0 then pop / area else 0)) md)

/-- Function `create_density_metadata` of `create_melbourne_metadata.py`. -/
def create_density_metadata (api_data : List Record) :
    Except PyError (List (String × ℚ)) :=
  match latestYear api_data with
  | .error e => .error e
  | .ok ly => densityLoop ly api_data []

/-- The set comprehension `set(region['sa2_name'] for region in api_data)`
in `analyze_data_coverage`; a record without the name field raises `KeyError`. -/
def api_sa2_names : List Record → Except PyError (Finset String)
  | [] => .ok ∅
  | r :: rs =>
    match getName r with
    | .error e => .error e
    | .ok n =>
      match api_sa2_names rs with
      | .error e => .error e
      | .ok s => .ok (insert n s)

/-- The intersection `api_sa2_names.intersection(shapefile_sa2_names)`
computed by `analyze_data_coverage`. -/
def common_names (api_names shapefile_names : Finset String) : Finset String :=
  api_names ∩ shapefile_names

/-- The difference `api_sa2_names - shapefile_sa2_names`
computed by `analyze_data_coverage`. -/
def api_only (api_names shapefile_names : Finset String) : Finset String :=
  api_names \ shapefile_names

/-- The difference `shapefile_sa2_names - api_sa2_names`
computed by `analyze_data_coverage`. -/
def shapefile_only (api_names shapefile_names : Finset String) : Finset String :=
  shapefile_names \ api_names

/-- Function `analyze_data_coverage` of `create_melbourne_metadata.py`:
returns the matched-name set `common_names` (the reports it prints are out of
the model); `shapefile_names` stands for `set(bounds_data['data'].keys())`. -/
def analyze_data_coverage (api_data : List Record) (shapefile_names : Finset String) :
    Except PyError (Finset String) :=
  match api_sa2_names api_data with
  | .error e => .error e
  | .ok a => .ok (common_names a shapefile_names)

/-- The `for region in api_data` loop of `create_matched_metadata`: a region
whose name is in `common_names` contributes its population to
`population_metadata` and its rounded density to `density_metadata`; lookups
happen before either assignment, so a raised `KeyError` discards the run. -/
def matchedLoop (ly : String) (common : Finset String) :
    List Record → List (String × ℚ) → List (String × ℚ) →
      Except PyError (List (String × ℚ) × List (String × ℚ))
  | [], pop_md, dens_md => .ok (pop_md, dens_md)
  | r :: rs, pop_md, dens_md =>
    match getName r with
    | .error e => .error e
    | .ok name =>
      if name ∈ common then
        match getField r ly with
        | .error e => .error e
        | .ok pop =>
          match getField r "area_km2" with
          | .error e => .error e
          | .ok area =>
            matchedLoop ly common rs (dinsert name pop pop_md)
              (dinsert name (round2 (if area > 0 then pop / area else 0)) dens_md)
      else
        matchedLoop ly common rs pop_md dens_md

/-- Function `create_matched_metadata` of `create_melbourne_metadata.py`:
returns the pair (matched population metadata, matched density metadata). -/
def create_matched_metadata (api_data : List Record) (common : Finset String) :
    Except PyError (List (String × ℚ) × List (String × ℚ)) :=
  match latestYear api_data with
  | .error e => .error e
  | .ok ly => matchedLoop ly common api_data [] []

/-- Outcome of the `requests.get` + `r.raise_for_status()` + `r.json()`
sequence in `load_api_data`: a transport failure, a bad HTTP status, an
undecodable body, or the decoded record list. -/
inductive FetchOutcome where
  | transportFail
  | httpError (code : Nat)
  | jsonDecodeFail
  | ok (data : List Record)
deriving DecidableEq, Repr

/-- Function `load_api_data` of `create_melbourne_metadata.py`, with the
local cache file `melbourne_api_data.json` as explicit state (`none` when the
file does not exist). The structural check
`if not data or "sa2_name" not in data[0]` raises `ValueError` before the
cache write; on success the fetched data is written to the cache. Returns
(result, cache state after the call). -/
def load_api_data (outcome : FetchOutcome) (cache : Option (List Record)) :
    Except PyError (List Record) × Option (List Record) :=
  match outcome with
  | .transportFail => (.error .transportError, cache)
  | .httpError c => (.error (.httpStatusError c), cache)
  | .jsonDecodeFail => (.error .jsonDecodeError, cache)
  | .ok data =>
    match data with
    | [] => (.error (.valueError "API response structure does not contain sa2_name"), cache)
    | r :: _ =>
      match r.sa2_name with
      | some _ => (.ok data, some data)
      | none => (.error (.valueError "API response structure does not contain sa2_name"), cache)

/-- Step 1 of `main` in `create_melbourne_metadata.py`:
`try: api_data = load_api_data() except Exception: api_data = json.load(open(LOCAL_JSON))`.
The `except Exception` clause catches every error `load_api_data` raises; the
fallback read raises `FileNotFoundError` when the cache file is absent. -/
def mainLoadStep (outcome : FetchOutcome) (cache : Option (List Record)) :
    Except PyError (List Record) × Option (List Record) :=
  match load_api_data outcome cache with
  | (.ok d, c) => (.ok d, c)
  | (.error _, c) =>
    match c with
    | some d => (.ok d, c)
    | none => (.error .fileNotFoundError, c)

/-- One value of `bounds_data['data']` in `calculate_melbourne_center.py`:
the 6-tuple `[min_lng, min_lat, max_lng, max_lat, center_lng, center_lat]`. -/
structure BoundsEntry where
  min_lng : ℚ
  min_lat : ℚ
  max_lng : ℚ
  max_lat : ℚ
  center_lng : ℚ
  center_lat : ℚ
deriving DecidableEq, Repr

/-- The `all_xs.extend(...)` accumulation loop of `calculate_center_and_bounds`,
generic in what each region contributes. -/
def extendAll {α : Type} (g : α → List ℚ) (l : List α) : List ℚ :=
  l.foldl (fun acc x => acc ++ g x) []

/-- The list `all_lngs` of `calculate_center_and_bounds`: for each region, in
mapping order, its `min_lng` and `max_lng`. -/
def all_lngs (regions : List (String × BoundsEntry)) : List ℚ :=
  extendAll (fun p => [p.2.min_lng, p.2.max_lng]) regions

/-- The list `all_lats` of `calculate_center_and_bounds`: for each region, in
mapping order, its `min_lat` and `max_lat`. -/
def all_lats (regions : List (String × BoundsEntry)) : List ℚ :=
  extendAll (fun p => [p.2.min_lat, p.2.max_lat]) regions

/-- The zoom threshold chain of `calculate_center_and_bounds`, applied to
`max_span = max(lng_span, lat_span)`; the Python float literals 0.5, 0.2, 0.1
are the rationals 1/2, 1/5, 1/10. -/
def zoomOfSpan (max_span : ℚ) : ℕ :=
  if max_span > 10 then 8
  else if max_span > 5 then 9
  else if max_span > 2 then 10
  else if max_span > 1 then 11
  else if max_span > 1/2 then 12
  else if max_span > 1/5 then 13
  else if max_span > 1/10 then 14
  else 15

/-- Function `calculate_center_and_bounds` of `calculate_melbourne_center.py`:
returns `(center_lat, center_lng, zoom)`. `min`/`max` of the empty
accumulation lists raise `ValueError` (the empty-mapping case). -/
def calculate_center_and_bounds (regions : List (String × BoundsEntry)) :
    Except PyError (ℚ × ℚ × ℕ) :=
  match pyFoldMin? (all_lngs regions), pyFoldMax? (all_lngs regions),
        pyFoldMin? (all_lats regions), pyFoldMax? (all_lats regions) with
  | some overall_min_lng, some overall_max_lng, some overall_min_lat, some overall_max_lat =>
    let center_lng := (overall_min_lng + overall_max_lng) / 2
    let center_lat := (overall_min_lat + overall_max_lat) / 2
    let lng_span := overall_max_lng - overall_min_lng
    let lat_span := overall_max_lat - overall_min_lat
    .ok (center_lat, center_lng, zoomOfSpan (max lng_span lat_span))
  | _, _, _, _ => .error (.valueError "min arg is an empty sequence")

/-- Modelled from the spec words for claim C1 only: the year-labeled fields
present anywhere in the population data (the code, by contrast, inspects only
`api_data[0]`). -/
def allYearLabels (api_data : List Record) : List String :=
  (api_data.foldl (fun acc r => acc ++ keysOf r) []).filter (fun c => pyStartswith c "y")

theorem dinsert_map_fst (k : String) (v : ℚ) (d : List (String × ℚ)) :
    (dinsert k v d).map Prod.fst =
      if k ∈ d.map Prod.fst then d.map Prod.fst else d.map Prod.fst ++ [k] := by
  induction d with
  | nil => simp [dinsert]
  | cons p ps ih =>
    by_cases h : p.1 = k
    · simp [dinsert, h]
    · have hne : ¬ k = p.1 := fun hk => h hk.symm
      simp [dinsert, h, ih, List.mem_cons, hne]
      by_cases hk : k ∈ ps.map Prod.fst <;> simp [hk, hne]

theorem dinsert_keys_subset (k0 : String) (v : ℚ) (d : List (String × ℚ)) (s : Finset String)
    (hd : ∀ k ∈ d.map Prod.fst, k ∈ s) (hk0 : k0 ∈ s) :
    ∀ k ∈ (dinsert k0 v d).map Prod.fst, k ∈ s := by
  intro k hkmem
  rw [dinsert_map_fst] at hkmem
  by_cases h : k0 ∈ d.map Prod.fst
  · rw [if_pos h] at hkmem
    exact hd k hkmem
  · rw [if_neg h] at hkmem
    rcases List.mem_append.mp hkmem with h' | h'
    · exact hd k h'
    · rw [List.mem_singleton.mp h']
      exact hk0

theorem matchedLoop_keys_eq (ly : String) (common : Finset String) (l : List Record) :
    ∀ pop0 dens0 pop dens,
      matchedLoop ly common l pop0 dens0 = .ok (pop, dens) →
      pop0.map Prod.fst = dens0.map Prod.fst →
      pop.map Prod.fst = dens.map Prod.fst := by
  induction l with
  | nil =>
    intro pop0 dens0 pop dens h hk
    simp only [matchedLoop, Except.ok.injEq, Prod.mk.injEq] at h
    rw [← h.1, ← h.2]
    exact hk
  | cons r rs ih =>
    intro pop0 dens0 pop dens h hk
    cases hn : getName r with
    | error e => simp [matchedLoop, hn] at h
    | ok name =>
      simp only [matchedLoop, hn] at h
      by_cases hc : name ∈ common
      · rw [if_pos hc] at h
        cases hf : getField r ly with
        | error e => simp [hf] at h
        | ok pop' =>
          simp only [hf] at h
          cases ha : getField r "area_km2" with
          | error e => simp [ha] at h
          | ok area =>
            simp only [ha] at h
            exact ih _ _ _ _ h (by rw [dinsert_map_fst, dinsert_map_fst, hk])
      · rw [if_neg hc] at h
        exact ih _ _ _ _ h hk

theorem matchedLoop_keys_subset (ly : String) (common : Finset String) (l : List Record) :
    ∀ pop0 dens0 pop dens,
      matchedLoop ly common l pop0 dens0 = .ok (pop, dens) →
      (∀ k ∈ pop0.map Prod.fst, k ∈ common) →
      (∀ k ∈ dens0.map Prod.fst, k ∈ common) →
      (∀ k ∈ pop.map Prod.fst, k ∈ common) ∧ (∀ k ∈ dens.map Prod.fst, k ∈ common) := by
  induction l with
  | nil =>
    intro pop0 dens0 pop dens h h1 h2
    simp only [matchedLoop, Except.ok.injEq, Prod.mk.injEq] at h
    rw [← h.1, ← h.2]
    exact ⟨h1, h2⟩
  | cons r rs ih =>
    intro pop0 dens0 pop dens h h1 h2
    cases hn : getName r with
    | error e => simp [matchedLoop, hn] at h
    | ok name =>
      simp only [matchedLoop, hn] at h
      by_cases hc : name ∈ common
      · rw [if_pos hc] at h
        cases hf : getField r ly with
        | error e => simp [hf] at h
        | ok pop' =>
          simp only [hf] at h
          cases ha : getField r "area_km2" with
          | error e => simp [ha] at h
          | ok area =>
            simp only [ha] at h
            exact ih _ _ _ _ h (dinsert_keys_subset _ _ _ _ h1 hc)
              (dinsert_keys_subset _ _ _ _ h2 hc)
      · rw [if_neg hc] at h
        exact ih _ _ _ _ h h1 h2

theorem popLoop_malformed_fatal (ly : String) (l : List Record) :
    ∀ md, (∃ r ∈ l, r.sa2_name = none) → ∃ e, popLoop ly l md = .error e := by
  induction l with
  | nil =>
    intro md hmal
    obtain ⟨r, hr, _⟩ := hmal
    cases hr
  | cons r rs ih =>
    intro md hmal
    obtain ⟨r', hr', hnone⟩ := hmal
    rcases List.mem_cons.mp hr' with rfl | hmem
    · exact ⟨.keyError "sa2_name", by simp [popLoop, getName, hnone]⟩
    · cases hn : getName r with
      | error e => exact ⟨e, by simp [popLoop, hn]⟩
      | ok name =>
        cases hf : getField r ly with
        | error e => exact ⟨e, by simp [popLoop, hn, hf]⟩
        | ok pop =>
          obtain ⟨e, he⟩ := ih (dinsert name pop md) ⟨r', hmem, hnone⟩
          exact ⟨e, by simp [popLoop, hn, hf, he]⟩

theorem load_api_data_error_cache (o : FetchOutcome) (cache : Option (List Record)) (e : PyError)
    (h : (load_api_data o cache).1 = .error e) : (load_api_data o cache).2 = cache := by
  cases o with
  | transportFail => rfl
  | httpError c => rfl
  | jsonDecodeFail => rfl
  | ok data =>
    cases data with
    | nil => rfl
    | cons r rest =>
      cases hr : r.sa2_name with
      | some n => simp [load_api_data, hr] at h
      | none => simp [load_api_data, hr]

theorem extendAll_eq {α : Type} (g : α → List ℚ) (l : List α) :
    extendAll g l = (l.map g).flatten := by
  suffices h : ∀ acc, l.foldl (fun acc x => acc ++ g x) acc = acc ++ (l.map g).flatten by
    simpa [extendAll] using h []
  induction l with
  | nil => intro acc; simp
  | cons x xs ih => intro acc; simp [ih, List.append_assoc]

theorem mem_extendAll {α : Type} (g : α → List ℚ) (l : List α) (p : α) (hp : p ∈ l)
    (x : ℚ) (hx : x ∈ g p) : x ∈ extendAll g l := by
  rw [extendAll_eq]
  exact List.mem_flatten.mpr ⟨g p, List.mem_map_of_mem g hp, hx⟩

/-- C3: for every pair of name sets (population-record names, boundary-map
names), reconciliation computes their exact-string-equality intersection, the
matched count is symmetric in the two inputs, and every name of the union of
the two sets falls in exactly one of the three buckets matched,
population-only, boundary-only. -/
theorem C3_reconcile_partition :
    (∀ a b : Finset String, common_names a b = a ∩ b) ∧
    (∀ a b : Finset String, (common_names a b).card = (common_names b a).card) ∧
    (∀ (a b : Finset String) (n : String),
      n ∈ a ∪ b ↔
        ((n ∈ common_names a b ∧ n ∉ api_only a b ∧ n ∉ shapefile_only a b) ∨
         (n ∉ common_names a b ∧ n ∈ api_only a b ∧ n ∉ shapefile_only a b) ∨
         (n ∉ common_names a b ∧ n ∉ api_only a b ∧ n ∈ shapefile_only a b))) := by
  refine ⟨fun a b => rfl, fun a b => ?_, fun a b n => ?_⟩
  · rw [common_names, common_names, Finset.inter_comm]
  · simp only [common_names, api_only, shapefile_only, Finset.mem_union, Finset.mem_inter,
      Finset.mem_sdiff]
    by_cases ha : n ∈ a <;> by_cases hb : n ∈ b <;> simp [ha, hb]

/-- C5: on an empty boundary-info mapping, `calculate_center_and_bounds` fails
(the `min` of the empty coordinate list raises `ValueError`, the behavior the
specification files under `EmptyDatasetError`) instead of computing a center
from no data. -/
theorem C5_empty_dataset :
    calculate_center_and_bounds [] = .error (.valueError "min arg is an empty sequence") := rfl

/-- C8: for every boundary-info mapping, every region of the mapping has its
bounding box contained in the computed union bounding box: the union minima
are below the region minima and the union maxima above the region maxima. -/
theorem C8_union_box_contains (regions : List (String × BoundsEntry))
    (p : String × BoundsEntry) (hp : p ∈ regions) :
    ∃ mnLng mxLng mnLat mxLat,
      pyFoldMin? (all_lngs regions) = some mnLng ∧
      pyFoldMax? (all_lngs regions) = some mxLng ∧
      pyFoldMin? (all_lats regions) = some mnLat ∧
      pyFoldMax? (all_lats regions) = some mxLat ∧
      mnLng ≤ p.2.min_lng ∧ p.2.max_lng ≤ mxLng ∧
      mnLat ≤ p.2.min_lat ∧ p.2.max_lat ≤ mxLat := by
  have h1 : p.2.min_lng ∈ all_lngs regions := mem_extendAll _ _ p hp _ (by simp)
  have h2 : p.2.max_lng ∈ all_lngs regions := mem_extendAll _ _ p hp _ (by simp)
  have h3 : p.2.min_lat ∈ all_lats regions := mem_extendAll _ _ p hp _ (by simp)
  have h4 : p.2.max_lat ∈ all_lats regions := mem_extendAll _ _ p hp _ (by simp)
  obtain ⟨mnLng, hmn⟩ := pyFoldMin?_isSome _ (List.ne_nil_of_mem h1)
  obtain ⟨mxLng, hmx⟩ := pyFoldMax?_isSome _ (List.ne_nil_of_mem h1)
  obtain ⟨mnLat, hmn'⟩ := pyFoldMin?_isSome _ (List.ne_nil_of_mem h3)
  obtain ⟨mxLat, hmx'⟩ := pyFoldMax?_isSome _ (List.ne_nil_of_mem h3)
  exact ⟨mnLng, mxLng, mnLat, mxLat, hmn, hmx, hmn', hmx',
    pyFoldMin?_le _ _ hmn _ h1, pyFoldMax?_ge _ _ hmx _ h2,
    pyFoldMin?_le _ _ hmn' _ h3, pyFoldMax?_ge _ _ hmx' _ h4⟩

/-- Witness for C8 on a concrete two-region mapping. -/
theorem C8_witness :
    ∃ mnLng mxLng mnLat mxLat,
      pyFoldMin? (all_lngs [("Carlton", ⟨144, -38, 145, -37, 1445/10, -375/10⟩),
        ("Docklands", ⟨143, -39, 144, -38, 1435/10, -385/10⟩)]) = some mnLng ∧
      pyFoldMax? (all_lngs [("Carlton", ⟨144, -38, 145, -37, 1445/10, -375/10⟩),
        ("Docklands", ⟨143, -39, 144, -38, 1435/10, -385/10⟩)]) = some mxLng ∧
      pyFoldMin? (all_lats [("Carlton", ⟨144, -38, 145, -37, 1445/10, -375/10⟩),
        ("Docklands", ⟨143, -39, 144, -38, 1435/10, -385/10⟩)]) = some mnLat ∧
      pyFoldMax? (all_lats [("Carlton", ⟨144, -38, 145, -37, 1445/10, -375/10⟩),
        ("Docklands", ⟨143, -39, 144, -38, 1435/10, -385/10⟩)]) = some mxLat ∧
      mnLng ≤ (144 : ℚ) ∧ (145 : ℚ) ≤ mxLng ∧ mnLat ≤ (-38 : ℚ) ∧ (-37 : ℚ) ≤ mxLat :=
  C8_union_box_contains _ ("Carlton", ⟨144, -38, 145, -37, 1445/10, -375/10⟩)
    (List.mem_cons_self _ _)

/-- C10: when the fetch succeeds at the transport level but the decoded
response is empty or its first record lacks the `sa2_name` field,
`load_api_data` raises `ValueError` before the cache write, so the local
cache file is unchanged on that error. -/
theorem C10_cache_preserved :
    (∀ cache : Option (List Record),
      load_api_data (.ok []) cache =
        (.error (.valueError "API response structure does not contain sa2_name"), cache)) ∧
    (∀ (cache : Option (List Record)) (r : Record) (rest : List Record),
      r.sa2_name = none →
      load_api_data (.ok (r :: rest)) cache =
        (.error (.valueError "API response structure does not contain sa2_name"), cache)) := by
  refine ⟨fun cache => rfl, fun cache r rest h => ?_⟩
  simp only [load_api_data, h]

/-- Witness for C10: a malformed single-record response with a present cache. -/
theorem C10_witness :
    load_api_data (.ok [⟨none, [("y2021", 5)]⟩]) (some [⟨some "Carlton", [("y2021", 7)]⟩]) =
      (.error (.valueError "API response structure does not contain sa2_name"),
        some [⟨some "Carlton", [("y2021", 7)]⟩]) :=
  C10_cache_preserved.2 _ _ _ rfl

/-- C4 counterexample: the fetched response decodes successfully but its first
record is malformed (it lacks the `sa2_name` field). `load_api_data` raises a
`ValueError` — not a `TransportError` — and yet `main` converts it into a
fallback load of the local cache and continues, because its `except Exception`
clause catches every error. The claim that only a `TransportError` triggers
the fallback and that a malformed record propagates as a fatal error for the
run is therefore false at this input. -/
theorem C4_counterexample :
    (load_api_data (.ok [⟨none, [("y2021", 5)]⟩])
        (some [⟨some "Carlton", [("y2021", 7), ("area_km2", 2)]⟩])).1 =
      .error (.valueError "API response structure does not contain sa2_name") ∧
    mainLoadStep (.ok [⟨none, [("y2021", 5)]⟩])
        (some [⟨some "Carlton", [("y2021", 7), ("area_km2", 2)]⟩]) =
      (.ok [⟨some "Carlton", [("y2021", 7), ("area_km2", 2)]⟩],
        some [⟨some "Carlton", [("y2021", 7), ("area_km2", 2)]⟩]) :=
  ⟨rfl, rfl⟩

/-- C4 (amended): during the data-loading step, any exception raised inside
`load_api_data` — transport failure, bad HTTP status, JSON decode failure, or
the structural `ValueError` — is caught exactly once and converted into a
fallback load of the local cache; when the cache is absent the fallback itself
fails and that failure is fatal; a plain transport error in particular
triggers the fallback; and after loading, a malformed record (missing name
field) is never individually skipped — metadata creation fails for the whole
run. -/
theorem C4_error_policy :
    (∀ (o : FetchOutcome) (c : List Record) (e : PyError),
      (load_api_data o (some c)).1 = .error e → mainLoadStep o (some c) = (.ok c, some c)) ∧
    (∀ (o : FetchOutcome) (e : PyError),
      (load_api_data o none).1 = .error e →
        mainLoadStep o none = (.error .fileNotFoundError, none)) ∧
    (∀ cache : Option (List Record),
      (load_api_data .transportFail cache).1 = .error .transportError) ∧
    (∀ (ly : String) (l : List Record) (md : List (String × ℚ)),
      (∃ r ∈ l, r.sa2_name = none) → ∃ e, popLoop ly l md = .error e) := by
  refine ⟨?_, ?_, fun cache => rfl, fun ly l md h => popLoop_malformed_fatal ly l md h⟩
  · intro o c e h
    have hc := load_api_data_error_cache o (some c) e h
    rcases hload : load_api_data o (some c) with ⟨res, c2⟩
    rw [hload] at h hc
    simp only at h hc
    subst h
    subst hc
    simp [mainLoadStep, hload]
  · intro o e h
    have hc := load_api_data_error_cache o none e h
    rcases hload : load_api_data o none with ⟨res, c2⟩
    rw [hload] at h hc
    simp only at h hc
    subst h
    subst hc
    simp [mainLoadStep, hload]

/-- Witness for C4 (amended) at a plain transport failure with a cache. -/
theorem C4_witness :
    mainLoadStep .transportFail (some [⟨some "Carlton", [("y2021", 7)]⟩]) =
      (.ok [⟨some "Carlton", [("y2021", 7)]⟩], some [⟨some "Carlton", [("y2021", 7)]⟩]) :=
  C4_error_policy.1 .transportFail [⟨some "Carlton", [("y2021", 7)]⟩] .transportError rfl

set_option maxHeartbeats 2000000 in
/-- C6: for every boundary-info mapping on which the calculation succeeds, the
returned zoom level is the fixed threshold table applied to the single value
`max(lng_span, lat_span)`; the table has exclusive lower bounds evaluated
top-down with the first match winning, is monotonic non-increasing in the
span, and takes the example values of the specification. -/
theorem C6_zoom_table :
    (∀ (regions : List (String × BoundsEntry)) (clat clng : ℚ) (z : ℕ),
      calculate_center_and_bounds regions = .ok (clat, clng, z) →
      ∃ mnLng mxLng mnLat mxLat,
        pyFoldMin? (all_lngs regions) = some mnLng ∧
        pyFoldMax? (all_lngs regions) = some mxLng ∧
        pyFoldMin? (all_lats regions) = some mnLat ∧
        pyFoldMax? (all_lats regions) = some mxLat ∧
        z = zoomOfSpan (max (mxLng - mnLng) (mxLat - mnLat))) ∧
    (∀ s : ℚ,
      (10 < s → zoomOfSpan s = 8) ∧
      (5 < s → s ≤ 10 → zoomOfSpan s = 9) ∧
      (2 < s → s ≤ 5 → zoomOfSpan s = 10) ∧
      (1 < s → s ≤ 2 → zoomOfSpan s = 11) ∧
      (1/2 < s → s ≤ 1 → zoomOfSpan s = 12) ∧
      (1/5 < s → s ≤ 1/2 → zoomOfSpan s = 13) ∧
      (1/10 < s → s ≤ 1/5 → zoomOfSpan s = 14) ∧
      (s ≤ 1/10 → zoomOfSpan s = 15)) ∧
    (∀ s t : ℚ, s ≤ t → zoomOfSpan t ≤ zoomOfSpan s) ∧
    (zoomOfSpan (5/100) = 15 ∧ zoomOfSpan (15/100) = 14 ∧ zoomOfSpan (3/10) = 13 ∧
      zoomOfSpan (7/10) = 12 ∧ zoomOfSpan (15/10) = 11 ∧ zoomOfSpan 3 = 10 ∧
      zoomOfSpan 7 = 9 ∧ zoomOfSpan 15 = 8) := by
  refine ⟨?_, ?_, ?_, ?_⟩
  · intro regions clat clng z h
    unfold calculate_center_and_bounds at h
    split at h
    case _ mnLng mxLng mnLat mxLat h1 h2 h3 h4 =>
      simp only [Except.ok.injEq, Prod.mk.injEq] at h
      exact ⟨mnLng, mxLng, mnLat, mxLat, h1, h2, h3, h4, h.2.2.symm⟩
    case _ => cases h
  · intro s
    refine ⟨?_, ?_, ?_, ?_, ?_, ?_, ?_, ?_⟩ <;>
      intros <;> simp only [zoomOfSpan] <;> split_ifs <;> first | rfl | (exfalso; linarith)
  · intro s t hst
    simp only [zoomOfSpan]
    split_ifs <;> first | omega | (exfalso; linarith)
  · refine ⟨?_, ?_, ?_, ?_, ?_, ?_, ?_, ?_⟩ <;> norm_num [zoomOfSpan]

/-- Witness for C6 on a concrete one-region mapping with spans 2 and 1. -/
theorem C6_witness :
    ∃ mnLng mxLng mnLat mxLat,
      pyFoldMin? (all_lngs [("Carlton", ⟨144, -38, 146, -37, 145, -375/10⟩)]) = some mnLng ∧
      pyFoldMax? (all_lngs [("Carlton", ⟨144, -38, 146, -37, 145, -375/10⟩)]) = some mxLng ∧
      pyFoldMin? (all_lats [("Carlton", ⟨144, -38, 146, -37, 145, -375/10⟩)]) = some mnLat ∧
      pyFoldMax? (all_lats [("Carlton", ⟨144, -38, 146, -37, 145, -375/10⟩)]) = some mxLat ∧
      11 = zoomOfSpan (max (mxLng - mnLng) (mxLat - mnLat)) :=
  C6_zoom_table.1 [("Carlton", ⟨144, -38, 146, -37, 145, -375/10⟩)] (-75/2) 145 11
    (by norm_num [calculate_center_and_bounds, all_lngs, all_lats, extendAll,
      pyFoldMin?, pyFoldMax?, pyMin, pyMax, zoomOfSpan, max_def])

/-- C1 counterexample: two records whose year columns differ. The year-labeled
fields present in the data are `y2001` and `y2021`, whose lexicographic
maximum is `y2021`, yet the select-latest-year operation returns `y2001`
because it inspects only `api_data[0]`. The claim that the operation chooses
the lexicographically maximal label among all year-labeled fields present in
the population data is therefore false at this input. -/
theorem C1_counterexample :
    latestYear [⟨some "Carlton", [("area_km2", 1), ("y2001", 10)]⟩,
        ⟨some "Docklands", [("area_km2", 1), ("y2021", 20)]⟩] = .ok "y2001" ∧
    "y2021" ∈ allYearLabels [⟨some "Carlton", [("area_km2", 1), ("y2001", 10)]⟩,
        ⟨some "Docklands", [("area_km2", 1), ("y2021", 20)]⟩] ∧
    "y2001".data < "y2021".data :=
  ⟨rfl, by decide, by decide⟩

/-- C1 (amended): for every non-empty list of population records, the
select-latest-year operation chooses the lexicographically maximal label
among the year-labeled fields of the first record only, and it fails (with
the `ValueError` that `max` raises on an empty sequence, the failure the
specification files under `DataShapeError`) when the first record has no
year-labeled field — even if later records do. -/
theorem C1_latest_year_first_record (r : Record) (rest : List Record) :
    ((keysOf r).filter (fun c => pyStartswith c "y") ≠ [] →
      ∃ y, latestYear (r :: rest) = .ok y ∧
        y ∈ (keysOf r).filter (fun c => pyStartswith c "y") ∧
        ∀ c ∈ (keysOf r).filter (fun c => pyStartswith c "y"), c.data ≤ y.data) ∧
    ((keysOf r).filter (fun c => pyStartswith c "y") = [] →
      latestYear (r :: rest) = .error (.valueError "max arg is an empty sequence")) := by
  constructor
  · intro hne
    cases hy : (keysOf r).filter (fun c => pyStartswith c "y") with
    | nil => exact absurd hy hne
    | cons x xs =>
      refine ⟨xs.foldl pyStrMax x, ?_, ?_, ?_⟩
      · simp only [latestYear, hy, pyStrMax?]
      · rcases foldl_pyStrMax_mem xs x with h | h
        · rw [h]
          exact List.mem_cons_self x xs
        · exact List.mem_cons_of_mem x h
      · intro c hc
        rcases List.mem_cons.mp hc with rfl | hc
        · exact (foldl_pyStrMax_ge xs c).1
        · exact (foldl_pyStrMax_ge xs x).2 c hc
  · intro hy
    simp only [latestYear, hy, pyStrMax?]

/-- Witness for C1 (amended) on a single record with two year columns. -/
theorem C1_witness :
    ∃ y, latestYear [(⟨some "Carlton", [("area_km2", 1), ("y2001", 10), ("y2021", 20)]⟩ :
        Record)] = .ok y ∧
      y ∈ (keysOf ⟨some "Carlton", [("area_km2", 1), ("y2001", 10), ("y2021", 20)]⟩).filter
        (fun c => pyStartswith c "y") ∧
      ∀ c ∈ (keysOf ⟨some "Carlton", [("area_km2", 1), ("y2001", 10), ("y2021", 20)]⟩).filter
        (fun c => pyStartswith c "y"), c.data ≤ y.data :=
  (C1_latest_year_first_record
    ⟨some "Carlton", [("area_km2", 1), ("y2001", 10), ("y2021", 20)]⟩ []).1 (by decide)

/-- C2 counterexample: a record with no `area_km2` field. The claim says the
computed density is 0 when the area field is missing; the code instead raises
a `KeyError` on `region['area_km2']`, which is fatal for the run. -/
theorem C2_counterexample :
    create_density_metadata [⟨some "Carlton", [("y2021", 1000)]⟩] =
      .error (.keyError "area_km2") := rfl

/-- C2 (amended): for every record whose lookups succeed, the stored density
is population / area rounded to 2 decimal places when area > 0 and 0 when
area == 0 (or negative); a missing area field raises a fatal `KeyError`
instead of yielding 0; in particular population=1000 with area=50 yields
density 20.0, and area=0 yields density 0 with no division-by-zero error. -/
theorem C2_density :
    (∀ (ly name : String) (rs : List Record) (md : List (String × ℚ)) (r : Record)
        (pop area : ℚ),
      getName r = .ok name → getField r ly = .ok pop → getField r "area_km2" = .ok area →
      densityLoop ly (r :: rs) md =
        densityLoop ly rs (dinsert name (round2 (if area > 0 then pop / area else 0)) md)) ∧
    (∀ (ly name : String) (rs : List Record) (md : List (String × ℚ)) (r : Record) (pop : ℚ),
      getName r = .ok name → getField r ly = .ok pop →
      getField r "area_km2" = .error (.keyError "area_km2") →
      densityLoop ly (r :: rs) md = .error (.keyError "area_km2")) ∧
    round2 ((1000 : ℚ) / 50) = 20 ∧
    create_density_metadata [⟨some "Carlton", [("y2021", 1000), ("area_km2", 50)]⟩] =
      .ok [("Carlton", 20)] ∧
    create_density_metadata [⟨some "Docklands", [("y2021", 1000), ("area_km2", 0)]⟩] =
      .ok [("Docklands", 0)] := by
  refine ⟨?_, ?_, ?_, ?_, ?_⟩
  · intro ly name rs md r pop area h1 h2 h3
    simp only [densityLoop, h1, h2, h3]
  · intro ly name rs md r pop h1 h2 h3
    simp only [densityLoop, h1, h2, h3]
  · rw [round2, round_eq]
    norm_num
  · have h50 : round2 (if (50 : ℚ) > 0 then 1000 / 50 else 0) = 20 := by
      rw [if_pos (by norm_num), round2, round_eq]
      norm_num
    rw [show create_density_metadata [⟨some "Carlton", [("y2021", 1000), ("area_km2", 50)]⟩] =
        .ok [("Carlton", round2 (if (50 : ℚ) > 0 then 1000 / 50 else 0))] from rfl, h50]
  · have h0 : round2 (if (0 : ℚ) > 0 then 1000 / 0 else 0) = 0 := by
      rw [if_neg (by norm_num), round2, round_eq]
      norm_num
    rw [show create_density_metadata [⟨some "Docklands", [("y2021", 1000), ("area_km2", 0)]⟩] =
        .ok [("Docklands", round2 (if (0 : ℚ) > 0 then 1000 / 0 else 0))] from rfl, h0]

/-- Witness for C2 (amended) at a record with population 1000 and area 50. -/
theorem C2_witness :
    densityLoop "y2021" [⟨some "Carlton", [("y2021", 1000), ("area_km2", 50)]⟩] [] =
      densityLoop "y2021" []
        (dinsert "Carlton" (round2 (if (50 : ℚ) > 0 then 1000 / 50 else 0)) []) :=
  C2_density.1 "y2021" "Carlton" [] [] ⟨some "Carlton", [("y2021", 1000), ("area_km2", 50)]⟩
    1000 50 rfl rfl rfl

/-- C7: whenever `create_matched_metadata` is run with the matched set
computed by the reconciliation (the intersection of population-record names
and boundary names) and succeeds, the key set of the matched population
mapping and the key set of the matched density mapping are both subsets of
that matched set. -/
theorem C7_matched_keys_subset (api_data : List Record) (a b : Finset String)
    (pop dens : List (String × ℚ))
    (h : create_matched_metadata api_data (common_names a b) = .ok (pop, dens)) :
    (∀ k ∈ pop.map Prod.fst, k ∈ common_names a b) ∧
    (∀ k ∈ dens.map Prod.fst, k ∈ common_names a b) := by
  cases hly : latestYear api_data with
  | error e => simp [create_matched_metadata, hly] at h
  | ok ly =>
    simp only [create_matched_metadata, hly] at h
    exact matchedLoop_keys_subset ly (common_names a b) api_data [] [] pop dens h
      (by simp) (by simp)

/-- Witness for C7 on one matched record and sets {Carlton}, {Carlton, Docklands}. -/
theorem C7_witness :
    (∀ k ∈ ([("Carlton", (1000 : ℚ))]).map Prod.fst,
      k ∈ common_names {"Carlton"} {"Carlton", "Docklands"}) ∧
    (∀ k ∈ ([("Carlton", round2 (if (50 : ℚ) > 0 then 1000 / 50 else 0))]).map Prod.fst,
      k ∈ common_names {"Carlton"} {"Carlton", "Docklands"}) :=
  C7_matched_keys_subset [⟨some "Carlton", [("y2021", 1000), ("area_km2", 50)]⟩]
    {"Carlton"} {"Carlton", "Docklands"} _ _ rfl

/-- C9: the matched population mapping and the matched density mapping
produced by the same successful `create_matched_metadata` run have identical
key sequences (a name receives a density entry if and only if it receives a
population entry, in the same order). -/
theorem C9_matched_key_sets_equal (api_data : List Record) (common : Finset String)
    (pop dens : List (String × ℚ))
    (h : create_matched_metadata api_data common = .ok (pop, dens)) :
    pop.map Prod.fst = dens.map Prod.fst := by
  cases hly : latestYear api_data with
  | error e => simp [create_matched_metadata, hly] at h
  | ok ly =>
    simp only [create_matched_metadata, hly] at h
    exact matchedLoop_keys_eq ly common api_data [] [] pop dens h rfl

/-- Witness for C9 on one matched record. -/
theorem C9_witness :
    ([("Fitzroy", (800 : ℚ))]).map Prod.fst =
      ([("Fitzroy", round2 (if (2 : ℚ) > 0 then 800 / 2 else 0))]).map Prod.fst :=
  C9_matched_key_sets_equal [⟨some "Fitzroy", [("y2021", 800), ("area_km2", 2)]⟩]
    {"Fitzroy"} _ _ rfl
